import Mathlib

set_option linter.unusedVariables false

/-!
Verification development for the SMART-on-FHIR EHR front-end
(`src/pages/index.js`, `src/pages/vitals.js`).

The JavaScript source is shallowly embedded: every translated definition
mirrors one function of the source.  Browser primitives (fetch,
sessionStorage, crypto.subtle, environment variables, Math.random) are
modelled as explicit inputs: HTTP responses and the random strings are
fields of an environment record, and sessionStorage is an explicit record
threaded through each operation.  Side effects (step changes, store
writes, network requests, the redirect navigation) are recorded in an
ordered trace list so that temporal claims can be stated.
-/

/-! ## JavaScript value helpers -/

/-- JS truthiness of a `string | null` value: `null`, `undefined` and the
empty string are falsy. -/
def jsTruthy : Option String → Bool
  | none => false
  | some s => !(s == "")

/-- JS `a || b` on a `string | null | undefined` left operand. -/
def jsOrStr (a : Option String) (b : String) : String :=
  match a with
  | some s => if s == "" then b else s
  | none => b

/-- JS template interpolation of a possibly-`null` value (`null` renders
as the string "null", e.g. in a URL template or `fetch(null)`). -/
def jsStr : Option String → String
  | none => "null"
  | some s => s

/-- JS interpolation / `sessionStorage.setItem` coercion of a possibly
`undefined` value (`undefined` renders as the string "undefined"). -/
def jsUndefStr : Option String → String
  | none => "undefined"
  | some s => s

/-- `Response.ok` of the Fetch API: status in the range [200, 300). -/
def statusOk (status : Nat) : Bool :=
  200 ≤ status && status < 300

/-- `Array.prototype.slice(start, stop)` for in-range indices, as used by
the pagination code (`vitals.slice(startIndex, endIndex)`). -/
def jsSlice (l : List α) (start stop : Nat) : List α :=
  (l.drop start).take (stop - start)

/-! ## Observation value model (`vitals.js`)

Only the fields read by the translated functions are modelled.  Numeric
FHIR quantities are carried as `Int` (the source only interpolates them
into template strings, never computes with them). -/

structure VitalQuantity where
  value : Option Int
  unit : Option String
deriving DecidableEq

structure ObsComponent where
  valueQuantity : Option VitalQuantity
deriving DecidableEq

structure ObsCoding where
  display : Option String
  code : Option String
deriving DecidableEq

structure ObsCodeableConcept where
  text : Option String
  coding : Option (List ObsCoding)
deriving DecidableEq

structure Observation where
  valueQuantity : Option VitalQuantity
  component : Option (List ObsComponent)
  valueCodeableConcept : Option ObsCodeableConcept
  valueString : Option String
  valueBoolean : Option Bool
deriving DecidableEq

/-- The empty observation: none of the five value shapes present. -/
def emptyObservation : Observation :=
  { valueQuantity := none, component := none, valueCodeableConcept := none,
    valueString := none, valueBoolean := none }

/-- Rendering of a quantity, `` `${value.value} ${value.unit || ''}` ``
(vitals.js line 148): guarded by `value.value !== undefined`. -/
def renderQuantity (q : VitalQuantity) : Option String :=
  match q.value with
  | some v => some (toString v ++ " " ++ jsOrStr q.unit "")
  | none => none

/-- vitals.js lines 146-149: the `valueQuantity` guard and early return. -/
def branchValueQuantity (o : Observation) : Option String :=
  match o.valueQuantity with
  | some value => renderQuantity value
  | none => none

/-- vitals.js lines 152-156: `observation.component?.[0]` with a usable
`valueQuantity` returns just that first component's rendering. -/
def branchFirstComponent (o : Observation) : Option String :=
  match (o.component.getD []).head? with
  | some component =>
    match component.valueQuantity with
    | some q => renderQuantity q
    | none => none
  | none => none

/-- vitals.js lines 159-170: when `component.length > 1`, render every
component (absent values become "N/A"), drop the "N/A" entries and join
the remainder with " / ". -/
def branchMultiComponent (o : Observation) : Option String :=
  match o.component with
  | some comps =>
    if comps.length > 1 then
      let components := (comps.map fun comp =>
        match comp.valueQuantity with
        | some q =>
          match q.value with
          | some v => toString v ++ " " ++ jsOrStr q.unit ""
          | none => "N/A"
        | none => "N/A").filter fun val => val != "N/A"
      if components.length > 0 then some (String.intercalate " / " components)
      else none
    else none
  | none => none

/-- vitals.js lines 173-175: `valueCodeableConcept.text ||
coding?.[0]?.display || 'Coded value'`. -/
def branchCodeableConcept (o : Observation) : Option String :=
  match o.valueCodeableConcept with
  | some vcc =>
    some (jsOrStr vcc.text
      (jsOrStr ((vcc.coding.getD []).head?.bind fun cd => cd.display) "Coded value"))
  | none => none

/-- vitals.js lines 178-180: `if (observation.valueString)` (truthiness,
so the empty string falls through). -/
def branchValueString (o : Observation) : Option String :=
  match o.valueString with
  | some s => if s == "" then none else some s
  | none => none

/-- vitals.js lines 183-185: `valueBoolean !== undefined` (so `false` is
still rendered, as "No"). -/
def branchValueBoolean (o : Observation) : Option String :=
  match o.valueBoolean with
  | some b => some (if b then "Yes" else "No")
  | none => none

/-- `formatVitalValue` (vitals.js lines 144-188): the sequential
early-return chain over the value shapes, with the final
"No value available" sentinel. -/
def formatVitalValue (observation : Observation) : String :=
  match branchValueQuantity observation with
  | some r => r
  | none =>
    match branchFirstComponent observation with
    | some r => r
    | none =>
      match branchMultiComponent observation with
      | some r => r
      | none =>
        match branchCodeableConcept observation with
        | some r => r
        | none =>
          match branchValueString observation with
          | some r => r
          | none =>
            match branchValueBoolean observation with
            | some r => r
            | none => "No value available"

/-! ## Pagination (`vitals.js`) -/

/-- `VITALS_PER_PAGE` (vitals.js line 24). -/
def VITALS_PER_PAGE : Nat := 5

/-- One entry of `getVitalCategories()`: a grouping key with its count
and sorted observation list. -/
structure VitalCategory where
  name : String
  count : Nat
  vitals : List Observation
deriving DecidableEq

/-- The React state touched by the pagination handlers. -/
structure PageState where
  selectedCategory : Option VitalCategory
  categoryVitals : List Observation
  currentPage : Nat
deriving DecidableEq

/-- Initial pagination state (`useState(null)`, `useState([])`,
`useState(0)`, vitals.js lines 8-10). -/
def initialPageState : PageState :=
  { selectedCategory := none, categoryVitals := [], currentPage := 0 }

/-- `selectCategory` (vitals.js lines 111-115). -/
def selectCategory (category : VitalCategory) (s : PageState) : PageState :=
  { s with
    selectedCategory := some category
    currentPage := 0
    categoryVitals := jsSlice category.vitals 0 VITALS_PER_PAGE }

/-- `loadMoreVitals` (vitals.js lines 117-129): advance one page,
replacing (never appending to) the window; a no-op when the next window
is empty. -/
def loadMoreVitals (s : PageState) : PageState :=
  match s.selectedCategory with
  | none => s
  | some selected =>
    let nextPage := s.currentPage + 1
    let startIndex := nextPage * VITALS_PER_PAGE
    let endIndex := startIndex + VITALS_PER_PAGE
    let newVitals := jsSlice selected.vitals startIndex endIndex
    if newVitals.length > 0 then
      { s with categoryVitals := newVitals, currentPage := nextPage }
    else s

/-- `hasMoreVitals` (vitals.js lines 131-134). -/
def hasMoreVitals (s : PageState) : Bool :=
  match s.selectedCategory with
  | none => false
  | some selected =>
    decide ((s.currentPage + 1) * VITALS_PER_PAGE < selected.vitals.length)

/-- The "Previous 5" click handler (vitals.js lines 665-671).  The button
is only rendered when a category is selected and `currentPage > 0`
(lines 645 and 663), so the operation is the identity otherwise. -/
def goPrevPage (s : PageState) : PageState :=
  match s.selectedCategory with
  | none => s
  | some selected =>
    if s.currentPage = 0 then s
    else
      let prevPage := s.currentPage - 1
      let startIndex := prevPage * VITALS_PER_PAGE
      let endIndex := startIndex + VITALS_PER_PAGE
      { s with
        categoryVitals := jsSlice selected.vitals startIndex endIndex
        currentPage := prevPage }

/-! ## Observation submission lookups (`vitals.js`) -/

/-- `getLoincCode` (vitals.js lines 410-422): static category→LOINC map
with the "unknown" fallback. -/
def getLoincCode (category : String) : String :=
  if category == "Blood Pressure" then "8480-6"
  else if category == "Temperature" then "8331-1"
  else if category == "Heart Rate" then "8867-4"
  else if category == "Respiratory Rate" then "9279-1"
  else if category == "Oxygen Saturation" then "703498"
  else if category == "Weight" then "29463-7"
  else if category == "Height" then "8302-2"
  else if category == "Body Mass Index" then "39156-5"
  else "unknown"

/-- `getUcumCode` (vitals.js lines 425-438): static unit→UCUM map;
unknown units pass through unchanged. -/
def getUcumCode (unit : String) : String :=
  if unit == "mmHg" then "mm[Hg]"
  else if unit == "bpm" then "/min"
  else if unit == "°C" then "Cel"
  else if unit == "°F" then "[degF]"
  else if unit == "kg" then "kg"
  else if unit == "lbs" then "[lb_av]"
  else if unit == "cm" then "cm"
  else if unit == "in" then "[in_i]"
  else if unit == "%" then "%"
  else unit

/-- The form state `newVital` (vitals.js lines 15-20). -/
structure NewVital where
  category : String
  value : String
  unit : String
  date : String
deriving DecidableEq

/-- The FHIR Observation resource built by `createNewVital`
(vitals.js lines 260-296), restricted to its variable parts.  The
numeric conversion `parseFloat(newVital.value)` and the
`toISOString()` normalisation are kept as the raw strings: no claim
inspects them and they involve floating point / locale time. -/
structure ObsResource where
  loincCode : String
  codeText : String
  subjectReference : String
  effectiveDateTime : String
  valueRaw : String
  valueUnit : String
  ucumCode : String
deriving DecidableEq

/-- Construction of the posted resource from the form state
(vitals.js lines 260-296). -/
def buildObservationResource (nv : NewVital) (patientId : String) : ObsResource :=
  { loincCode := getLoincCode nv.category
    codeText := nv.category
    subjectReference := "Patient/" ++ patientId
    effectiveDateTime := nv.date
    valueRaw := nv.value
    valueUnit := nv.unit
    ucumCode := getUcumCode nv.unit }

/-! ## Session storage and token data

`sessionStorage` is modelled as a record with one `Option String`-valued
field per persisted key (the enumerated tab-scoped keys of the app);
`none` is an absent key (`getItem` returns `null`).  The cached patient
snapshot is stored via `JSON.stringify`/`JSON.parse`, modelled as the
resource itself (the round trip is the identity on the modelled
fields). -/

/-- The parsed FHIR Patient resource, restricted to the field the
launch page persists (`patient.id`, index page line 255). -/
structure PatientResource where
  id : String
deriving DecidableEq

structure SessionStore where
  code_verifier : Option String
  state : Option String
  issuer : Option String
  token_endpoint : Option String
  iss : Option String
  launch : Option String
  access_token : Option String
  refresh_token : Option String
  patient_id : Option String
  patient_data : Option PatientResource
deriving DecidableEq

/-- An entirely empty session store. -/
def emptyStore : SessionStore :=
  { code_verifier := none, state := none, issuer := none, token_endpoint := none,
    iss := none, launch := none, access_token := none, refresh_token := none,
    patient_id := none, patient_data := none }

/-- The parsed JSON body of a successful token-endpoint response. -/
structure TokenData where
  access_token : String
  refresh_token : Option String
  patient : Option String
deriving DecidableEq

/-! ## PKCE code challenge (`generateCodeChallenge`, index page lines 278-286)

The browser primitive `crypto.subtle.digest('SHA-256', data)` is modelled
by an executable FIPS 180-4 SHA-256 over byte lists (`Nat` values < 256,
word arithmetic explicit modulo 2^32); `TextEncoder.encode` is the UTF-8
byte encoding of the string; `btoa` is standard base64 with '='
padding over the digest's byte string. -/

/-- UTF-8 bytes of a string (`new TextEncoder().encode(s)`). -/
def utf8Bytes (s : String) : List Nat :=
  s.toUTF8.toList.map fun b => b.toNat

/-- Truncation to a 32-bit word. -/
def w32 (n : Nat) : Nat := n % 4294967296

/-- 32-bit rotate right by `r` of a word `x < 2^32`, in explicit
div/mod arithmetic. -/
def rotr (r x : Nat) : Nat := x / 2 ^ r + x % 2 ^ r * 2 ^ (32 - r)

/-- Logical shift right. -/
def shr (r x : Nat) : Nat := x / 2 ^ r

/-- 32-bit complement of a word `x < 2^32`. -/
def bnot32 (x : Nat) : Nat := x ^^^ 4294967295

/-- The 64 SHA-256 round constants. -/
def sha256K : List Nat :=
  [1116352408, 1899447441, 3049323471, 3921009573, 961987163, 1508970993,
   2453635748, 2870763221, 3624381080, 310598401, 607225278, 1426881987,
   1925078388, 2162078206, 2614888103, 3248222580, 3835390401, 4022224774,
   264347078, 604807628, 770255983, 1249150122, 1555081692, 1996064986,
   2554220882, 2821834349, 2952996808, 3210313671, 3336571891, 3584528711,
   113926993, 338241895, 666307205, 773529912, 1294757372, 1396182291,
   1695183700, 1986661051, 2177026350, 2456956037, 2730485921, 2820302411,
   3259730800, 3345764771, 3516065817, 3600352804, 4094571909, 275423344,
   430227734, 506948616, 659060556, 883997877, 958139571, 1322822218,
   1537002063, 1747873779, 1955562222, 2024104815, 2227730452, 2361852424,
   2428436474, 2756734187, 3204031479, 3329325298]

/-- The SHA-256 initial hash value. -/
def sha256H0 : List Nat :=
  [1779033703, 3144134277, 1013904242, 2773480762,
   1359893119, 2600822924, 528734635, 1541459225]

/-- SHA-256 message padding: append 0x80, zeros, and the 64-bit
big-endian bit length, to a multiple of 64 bytes. -/
def sha256pad (msg : List Nat) : List Nat :=
  let L := msg.length
  let k := (64 - (L + 9) % 64) % 64
  let bits := 8 * L
  msg ++ [128] ++ List.replicate k 0 ++
    [bits / 2 ^ 56 % 256, bits / 2 ^ 48 % 256, bits / 2 ^ 40 % 256,
     bits / 2 ^ 32 % 256, bits / 2 ^ 24 % 256, bits / 2 ^ 16 % 256,
     bits / 2 ^ 8 % 256, bits % 256]

/-- Split a padded message into 64-byte blocks. -/
def chunks64 (l : List Nat) : List (List Nat) :=
  if h : l = [] then []
  else l.take 64 :: chunks64 (l.drop 64)
termination_by l.length
decreasing_by
  simp only [List.length_drop]
  have := List.length_pos.mpr h
  omega

/-- Big-endian 32-bit words of a block. -/
def words16 : List Nat → List Nat
  | b0 :: b1 :: b2 :: b3 :: rest =>
    (b0 * 2 ^ 24 + b1 * 2 ^ 16 + b2 * 2 ^ 8 + b3) :: words16 rest
  | _ => []

/-- One extension step of the SHA-256 message schedule: append
`w[i-16] + s0(w[i-15]) + w[i-7] + s1(w[i-2])`. -/
def scheduleStep (ws : List Nat) : List Nat :=
  let i := ws.length
  let w15 := ws.getD (i - 15) 0
  let w2 := ws.getD (i - 2) 0
  let w16 := ws.getD (i - 16) 0
  let w7 := ws.getD (i - 7) 0
  let s0 := rotr 7 w15 ^^^ rotr 18 w15 ^^^ shr 3 w15
  let s1 := rotr 17 w2 ^^^ rotr 19 w2 ^^^ shr 10 w2
  ws ++ [w32 (w16 + s0 + w7 + s1)]

/-- One SHA-256 compression round on the 8-word working state. -/
def compressRound (k w : Nat) (st : List Nat) : List Nat :=
  match st with
  | [a, b, c, d, e, f, g, h] =>
    let S1 := rotr 6 e ^^^ rotr 11 e ^^^ rotr 25 e
    let ch := (e &&& f) ^^^ (bnot32 e &&& g)
    let temp1 := w32 (h + S1 + ch + k + w)
    let S0 := rotr 2 a ^^^ rotr 13 a ^^^ rotr 22 a
    let maj := (a &&& b) ^^^ (a &&& c) ^^^ (b &&& c)
    let temp2 := w32 (S0 + maj)
    [w32 (temp1 + temp2), a, b, c, w32 (d + temp1), e, f, g]
  | other => other

/-- Compression of one 64-byte block into the running hash. -/
def compressBlock (h : List Nat) (block : List Nat) : List Nat :=
  let ws := scheduleStep^[48] (words16 block)
  let st := (sha256K.zip ws).foldl (fun s kw => compressRound kw.1 kw.2 s) h
  List.zipWith (fun x y => w32 (x + y)) h st

/-- Big-endian bytes of a 32-bit word. -/
def wordBytesBE (w : Nat) : List Nat :=
  [w / 2 ^ 24 % 256, w / 2 ^ 16 % 256, w / 2 ^ 8 % 256, w % 256]

/-- SHA-256 of a byte list, as the 32-byte digest
(models `crypto.subtle.digest('SHA-256', data)`). -/
def sha256 (msg : List Nat) : List Nat :=
  (((chunks64 (sha256pad msg)).foldl compressBlock sha256H0).map wordBytesBE).flatten

/-! ### btoa and the URL-safe rewriting -/

/-- The standard base64 alphabet used by `btoa`. -/
def b64StdChar (n : Nat) : Char :=
  "ABCDEFGHIJKLMNOPQRSTUVWXYZabcdefghijklmnopqrstuvwxyz0123456789+/".toList.getD n '?'

/-- `btoa` on a byte string (each byte < 256): standard base64 with '='
padding. -/
def btoaList : List Nat → List Char
  | [] => []
  | [a] => [b64StdChar (a / 4), b64StdChar (a % 4 * 16), '=', '=']
  | [a, b] => [b64StdChar (a / 4), b64StdChar (a % 4 * 16 + b / 16),
               b64StdChar (b % 16 * 4), '=']
  | a :: b :: c :: rest =>
    [b64StdChar (a / 4), b64StdChar (a % 4 * 16 + b / 16),
     b64StdChar (b % 16 * 4 + c / 64), b64StdChar (c % 64)] ++ btoaList rest

/-- `.replace(/\+/g, '-')` at character level. -/
def replacePlusChar (c : Char) : Char := if c = '+' then '-' else c

/-- `.replace(/\//g, '_')` at character level. -/
def replaceSlashChar (c : Char) : Char := if c = '/' then '_' else c

/-- `generateCodeChallenge` (index page lines 278-286): SHA-256 of the
verifier's UTF-8 bytes, `btoa`, then the three regex replacements
('+' → '-', '/' → '_', '=' removed). -/
def generateCodeChallenge (codeVerifier : String) : String :=
  String.mk
    ((((btoaList (sha256 (utf8Bytes codeVerifier))).map replacePlusChar).map
        replaceSlashChar).filter fun c => c != '=')

/-- The URL-safe base64 alphabet (RFC 4648 base64url). -/
def b64UrlChar (n : Nat) : Char :=
  "ABCDEFGHIJKLMNOPQRSTUVWXYZabcdefghijklmnopqrstuvwxyz0123456789-_".toList.getD n '?'

/-- Modelled from the spec: "URL-safe base64 encoding (with '+' replaced
by '-', '/' by '_', and no '=' padding)", i.e. RFC 4648 base64url
without padding, defined directly over the byte list. -/
def urlSafeB64NoPad : List Nat → List Char
  | [] => []
  | [a] => [b64UrlChar (a / 4), b64UrlChar (a % 4 * 16)]
  | [a, b] => [b64UrlChar (a / 4), b64UrlChar (a % 4 * 16 + b / 16),
               b64UrlChar (b % 16 * 4)]
  | a :: b :: c :: rest =>
    [b64UrlChar (a / 4), b64UrlChar (a % 4 * 16 + b / 16),
     b64UrlChar (b % 16 * 4 + c / 64), b64UrlChar (c % 64)] ++ urlSafeB64NoPad rest

/-- Modelled from the spec: the claimed value of the code challenge,
URL-safe unpadded base64 of the SHA-256 digest of the verifier's UTF-8
bytes. -/
def codeChallengeSpec (codeVerifier : String) : String :=
  String.mk (urlSafeB64NoPad (sha256 (utf8Bytes codeVerifier)))

/-! ## URL query encoding (`URLSearchParams.toString()`)

application/x-www-form-urlencoded serialisation: ASCII alphanumerics and
`*-._` pass through, space becomes '+', every other character is
percent-encoded from its UTF-8 bytes. -/

/-- An uppercase hexadecimal digit. -/
def hexDigitChar (n : Nat) : Char :=
  "0123456789ABCDEF".toList.getD n '0'

/-- Percent-encoding of one byte. -/
def pctEncodeByte (b : Nat) : List Char :=
  ['%', hexDigitChar (b / 16 % 16), hexDigitChar (b % 16)]

/-- Form-urlencoded encoding of one character. -/
def formEncodeChar (c : Char) : List Char :=
  if c = ' ' then ['+']
  else if c.isAlphanum || c = '*' || c = '-' || c = '.' || c = '_' then [c]
  else ((utf8Bytes (String.mk [c])).map pctEncodeByte).flatten

/-- Form-urlencoded encoding of one string. -/
def formEncodeStr (s : String) : String :=
  String.mk ((s.toList.map formEncodeChar).flatten)

/-- `new URLSearchParams({...}).toString()`. -/
def formEncodeParams (ps : List (String × String)) : String :=
  String.intercalate "&" (ps.map fun p => formEncodeStr p.1 ++ "=" ++ formEncodeStr p.2)

/-! ## The launch page (`src/pages/index.js`)

The complete revision of the page (the one that checks patient context,
persists the patient snapshot for the vitals page and supports the
cached-restore entry) is embedded.  Each handler is a function from the
page state to the page state; the environment record supplies what the
browser would: configuration variables, the two random strings, and the
response of each network endpoint. -/

/-- The parsed `.well-known/smart-configuration` document, which may
lack either endpoint URL. -/
structure SmartConfig where
  authorization_endpoint : Option String
  token_endpoint : Option String
deriving DecidableEq

/-- Environment of one run of the page: configuration, the outputs of
`generateRandomString`, and the (status, parsed body) of each network
endpoint the page may contact. -/
structure HomeEnv where
  clientId : Option String
  redirectUri : Option String
  codeVerifierRand : String
  stateRand : String
  discoveryStatus : Nat
  discoveryConfig : SmartConfig
  tokenStatus : Nat
  tokenErrorBody : String
  tokenData : TokenData
  patientStatus : Nat
  patientResource : PatientResource
deriving DecidableEq

/-- Observable side effects of the page, recorded in execution order. -/
inductive Effect where
  | stepSet (step : String)
  | storeWrite (key : String)
  | netGet (url : String)
  | netPost (url : String)
  | navigate (url : String)
deriving DecidableEq

/-- Network request effects. -/
def Effect.isNet : Effect → Bool
  | .netGet _ => true
  | .netPost _ => true
  | _ => false

/-- The React state of the page plus the session store and the effect
trace. -/
structure HomeState where
  step : String
  error : String
  patientData : Option PatientResource
  issuerSt : Option String
  launchSt : Option String
  store : SessionStore
  trace : List Effect
deriving DecidableEq

/-- Initial page state over a given session store (`useState` initial
values, index page lines 8-12). -/
def initialHome (store : SessionStore) : HomeState :=
  { step := "waiting", error := "", patientData := none,
    issuerSt := some "", launchSt := some "", store := store, trace := [] }

/-- `setStep`, recorded in the trace. -/
def setStepH (s : String) (st : HomeState) : HomeState :=
  { st with step := s, trace := st.trace ++ [Effect.stepSet s] }

/-- `fetchPatientData` (index page lines 233-261). -/
def fetchPatientData (env : HomeEnv) (accessToken patientId : String)
    (st : HomeState) : HomeState :=
  let st := setStepH "fetching-patient" st
  let issuer := st.store.issuer
  let patientUrl := jsStr issuer ++ "/Patient/" ++ patientId
  let st := { st with trace := st.trace ++ [Effect.netGet patientUrl] }
  if statusOk env.patientStatus then
    let patient := env.patientResource
    let st := { st with patientData := some patient }
    let st := { st with
      store := { st.store with patient_data := some patient }
      trace := st.trace ++ [Effect.storeWrite "patient_data"] }
    let st := { st with
      store := { st.store with patient_id := some patient.id }
      trace := st.trace ++ [Effect.storeWrite "patient_id"] }
    setStepH "success" st
  else
    setStepH "error"
      { st with error := "Patient fetch failed: Failed to fetch patient: "
          ++ toString env.patientStatus }

/-- `handleOAuthCallback` (index page lines 161-225).  The thrown
"State mismatch" and "Token exchange failed: status body" errors are
caught at line 220 and re-wrapped with the "Token exchange failed: "
prefix; the missing-patient branch sets its message directly. -/
def handleOAuthCallback (env : HomeEnv) (code stateParam : String)
    (st : HomeState) : HomeState :=
  let st := setStepH "exchanging-token" st
  let storedState := st.store.state
  let tokenEndpoint := st.store.token_endpoint
  let st := { st with issuerSt := st.store.iss, launchSt := st.store.launch }
  if storedState = some stateParam then
    let st := { st with trace := st.trace ++ [Effect.netPost (jsStr tokenEndpoint)] }
    if statusOk env.tokenStatus then
      let tokenData := env.tokenData
      let st := { st with
        store := { st.store with access_token := some tokenData.access_token }
        trace := st.trace ++ [Effect.storeWrite "access_token"] }
      if jsTruthy tokenData.patient then
        fetchPatientData env tokenData.access_token (jsStr tokenData.patient) st
      else
        setStepH "error"
          { st with error := "No patient context found in token. This app must be launched with a patient context." }
    else
      setStepH "error"
        { st with error := "Token exchange failed: Token exchange failed: "
            ++ toString env.tokenStatus ++ " " ++ env.tokenErrorBody }
  else
    setStepH "error" { st with error := "Token exchange failed: State mismatch" }

/-- `buildAuthUrl` (index page lines 113-153): generate PKCE values,
persist them (with issuer, token endpoint, iss and launch) into the
session store, build the authorization URL and navigate to it.  A
missing `token_endpoint` in the config is stored as the string
"undefined" and a missing `authorization_endpoint` yields a URL with the
"undefined" prefix (`setItem`/template coercion of `undefined`). -/
def buildAuthUrl (env : HomeEnv) (issuerUrl : String) (config : SmartConfig)
    (launch : String) (st : HomeState) : HomeState :=
  let st := setStepH "building-auth" st
  if jsTruthy env.clientId && jsTruthy env.redirectUri then
    let codeVerifier := env.codeVerifierRand
    let codeChallenge := generateCodeChallenge codeVerifier
    let state := env.stateRand
    let st := { st with
      store := { st.store with code_verifier := some codeVerifier }
      trace := st.trace ++ [Effect.storeWrite "code_verifier"] }
    let st := { st with
      store := { st.store with state := some state }
      trace := st.trace ++ [Effect.storeWrite "state"] }
    let st := { st with
      store := { st.store with issuer := some issuerUrl }
      trace := st.trace ++ [Effect.storeWrite "issuer"] }
    let st := { st with
      store := { st.store with token_endpoint := some (jsUndefStr config.token_endpoint) }
      trace := st.trace ++ [Effect.storeWrite "token_endpoint"] }
    let st := { st with
      store := { st.store with iss := some issuerUrl }
      trace := st.trace ++ [Effect.storeWrite "iss"] }
    let st := { st with
      store := { st.store with launch := some launch }
      trace := st.trace ++ [Effect.storeWrite "launch"] }
    let authParams := formEncodeParams
      [("response_type", "code"),
       ("client_id", jsStr env.clientId),
       ("redirect_uri", jsStr env.redirectUri),
       ("scope", "openid fhirUser launch user/Patient.read user/Observation.read user/Observation.write"),
       ("launch", launch),
       ("state", state),
       ("aud", issuerUrl),
       ("code_challenge", codeChallenge),
       ("code_challenge_method", "S256")]
    let authUrl := jsUndefStr config.authorization_endpoint ++ "?" ++ authParams
    let st := setStepH "redirecting" st
    { st with trace := st.trace ++ [Effect.navigate authUrl] }
  else
    setStepH "error" { st with error := "Auth URL build failed: Missing environment variables" }

/-- `discoverEndpoints` (index page lines 90-105): GET the well-known
configuration; on non-success status fail with the discovery error,
otherwise continue into `buildAuthUrl` with the parsed config. -/
def discoverEndpoints (env : HomeEnv) (issuerUrl launch : String)
    (st : HomeState) : HomeState :=
  let st := setStepH "discovering" st
  let wellKnownUrl := issuerUrl ++ "/.well-known/smart-configuration"
  let st := { st with trace := st.trace ++ [Effect.netGet wellKnownUrl] }
  if statusOk env.discoveryStatus then
    buildAuthUrl env issuerUrl env.discoveryConfig launch st
  else
    setStepH "error"
      { st with error := "Discovery failed: Failed to discover endpoints: "
          ++ toString env.discoveryStatus }

/-- The URL query parameters read by the entry `useEffect`. -/
structure UrlParams where
  code : Option String
  state : Option String
  iss : Option String
  launch : Option String
deriving DecidableEq

/-- The entry `useEffect` (index page lines 29-83): dispatch on the URL
parameters in priority order — OAuth callback, SMART launch, cached
patient restore, missing-parameters error. -/
def useEffectRun (env : HomeEnv) (p : UrlParams) (store : SessionStore) : HomeState :=
  let st := initialHome store
  if jsTruthy p.code && jsTruthy p.state then
    handleOAuthCallback env (jsStr p.code) (jsStr p.state) st
  else if jsTruthy p.iss && jsTruthy p.launch then
    let currentIssuer := jsStr p.iss
    let currentLaunch := jsStr p.launch
    let st := { st with issuerSt := some currentIssuer, launchSt := some currentLaunch }
    let st := setStepH "launch" st
    discoverEndpoints env currentIssuer currentLaunch st
  else if store.patient_data.isSome && jsTruthy store.iss then
    let st := { st with patientData := store.patient_data, issuerSt := store.iss }
    setStepH "success" st
  else
    setStepH "error" { st with error := "Missing required parameters. Please launch from EHR." }

/-! ## Observation submission (`vitals.js` lines 208-407)

`createNewVital` and its helper `refreshAccessToken`.  The environment
supplies the three possible network responses: the initial POST, the
refresh POST and the retried POST.  The trace records each POST of the
observation (with the bearer token and posted resource), each refresh
POST, and the final vitals re-fetch. -/

/-- Environment of a `createNewVital` run. -/
structure CreateEnv where
  firstStatus : Nat
  firstBody : String
  refreshStatus : Nat
  refreshData : TokenData
  retryStatus : Nat
  retryBody : String
deriving DecidableEq

/-- Network effects of a `createNewVital` run, in order. -/
inductive VEffect where
  | createPost (token : String) (body : ObsResource)
  | refreshPost
  | vitalsFetch (token : String)
deriving DecidableEq

/-- Final state of a `createNewVital` run. -/
structure CreateOutcome where
  error : String
  submitting : Bool
  store : SessionStore
  trace : List VEffect
deriving DecidableEq

/-- Result of `refreshAccessToken` together with whether a refresh POST
was actually issued (it is not when the stored refresh token or token
endpoint is missing). -/
inductive RefreshResult where
  | ok (newToken : String) (store : SessionStore)
  | err (msg : String)
deriving DecidableEq

/-- `refreshAccessToken` (vitals.js lines 208-246): POST the
refresh-token grant; on success replace the access token (and the
refresh token when the server rotates it) in the session store. -/
def refreshAccessToken (env : CreateEnv) (store : SessionStore) :
    RefreshResult × Bool :=
  if jsTruthy store.refresh_token && jsTruthy store.token_endpoint then
    if statusOk env.refreshStatus then
      let tokenData := env.refreshData
      let store := { store with access_token := some tokenData.access_token }
      let store := if jsTruthy tokenData.refresh_token then
          { store with refresh_token := tokenData.refresh_token }
        else store
      (RefreshResult.ok tokenData.access_token store, true)
    else
      (RefreshResult.err ("Token refresh failed: " ++ toString env.refreshStatus), true)
  else
    (RefreshResult.err "No refresh token available", false)

/-- `createNewVital` (vitals.js lines 248-407).  Error strings follow
the source's nested try/catch wrapping: an error thrown inside the
refresh-and-retry block is caught at line 367 and wrapped with
"Token refresh failed: ", and every error is finally wrapped with
"Failed to create vital: " by the outer catch at line 402. -/
def createNewVital (env : CreateEnv) (nv : NewVital) (store : SessionStore) :
    CreateOutcome :=
  if jsTruthy store.access_token && jsTruthy store.patient_id && jsTruthy store.issuer then
    let accessToken := jsStr store.access_token
    let patientId := jsStr store.patient_id
    let observation := buildObservationResource nv patientId
    let t0 : List VEffect := [VEffect.createPost accessToken observation]
    if statusOk env.firstStatus then
      -- empty or JSON body parsed (both accepted), form reset, re-fetch
      { error := "", submitting := false, store := store,
        trace := t0 ++ [VEffect.vitalsFetch accessToken] }
    else
      if env.firstStatus = 401 then
        match refreshAccessToken env store with
        | (RefreshResult.err msg, posted) =>
          { error := "Failed to create vital: Token refresh failed: " ++ msg,
            submitting := false, store := store,
            trace := t0 ++ if posted then [VEffect.refreshPost] else [] }
        | (RefreshResult.ok newAccessToken store2, _) =>
          let t1 := t0 ++ [VEffect.refreshPost, VEffect.createPost newAccessToken observation]
          if statusOk env.retryStatus then
            { error := "", submitting := false, store := store2,
              trace := t1 ++ [VEffect.vitalsFetch newAccessToken] }
          else
            { error := "Failed to create vital: Token refresh failed: Failed to create vital after token refresh: "
                ++ toString env.retryStatus ++ " " ++ env.retryBody,
              submitting := false, store := store2, trace := t1 }
      else
        { error := "Failed to create vital: " ++ toString env.firstStatus
            ++ " " ++ env.firstBody,
          submitting := false, store := store, trace := t0 }
  else
    { error := "Failed to create vital: Missing authentication data",
      submitting := false, store := store, trace := [] }

/-- Number of observation POSTs in a trace. -/
def createPostCount (t : List VEffect) : Nat :=
  t.countP fun e => match e with | VEffect.createPost _ _ => true | _ => false

/-- Number of refresh POSTs in a trace. -/
def refreshPostCount (t : List VEffect) : Nat :=
  t.countP fun e => match e with | VEffect.refreshPost => true | _ => false
/-! ## Concrete fixtures for witnesses and counterexamples -/

/-- A blood-pressure observation whose only value shape is the two
component quantities: systolic 120 mmHg, diastolic 80 mmHg. -/
def bloodPressureObservation : Observation :=
  { emptyObservation with
    component := some
      [{ valueQuantity := some { value := some 120, unit := some "mmHg" } },
       { valueQuantity := some { value := some 80, unit := some "mmHg" } }] }

/-- A category holding twelve observations. -/
def category12 : VitalCategory :=
  { name := "Heart Rate", count := 12, vitals := List.replicate 12 emptyObservation }

/-- The pagination window invariant: whenever a category is selected,
the displayed list is exactly the contiguous slice
[page · 5, page · 5 + 5) of that category's list (truncated at its end),
so at most 5 observations are displayed. -/
def paginationInv (s : PageState) : Bool :=
  match s.selectedCategory with
  | none => true
  | some c =>
    (s.categoryVitals == jsSlice c.vitals (s.currentPage * VITALS_PER_PAGE)
        (s.currentPage * VITALS_PER_PAGE + VITALS_PER_PAGE))
      && decide (s.categoryVitals.length ≤ VITALS_PER_PAGE)

/-- A concrete page state with a selected category. -/
def pageStateW : PageState := selectCategory category12 initialPageState

/-- Every listed session key is written at a strictly earlier trace
position than some navigation event. -/
def writesBeforeNavigate (t : List Effect) (keys : List String) : Prop :=
  ∀ k ∈ keys, ∃ i j : Nat, i < j ∧ t[i]? = some (Effect.storeWrite k) ∧
    ∃ u, t[j]? = some (Effect.navigate u)

/-- A fully successful environment for the launch page. -/
def envBase : HomeEnv :=
  { clientId := some "cid", redirectUri := some "https://app.example/callback",
    codeVerifierRand := "testverifier", stateRand := "xyz",
    discoveryStatus := 200,
    discoveryConfig := { authorization_endpoint := some "https://auth.example/authorize",
                         token_endpoint := some "https://auth.example/token" },
    tokenStatus := 200, tokenErrorBody := "",
    tokenData := { access_token := "tok1", refresh_token := some "r1", patient := some "p1" },
    patientStatus := 200, patientResource := { id := "p1" } }

/-- An environment whose token endpoint behaves very differently, to
exhibit independence from the token response. -/
def envAlt : HomeEnv :=
  { envBase with
    tokenStatus := 503
    tokenErrorBody := "unavailable"
    tokenData := { access_token := "evil", refresh_token := none, patient := none } }

/-- A session store as left behind by a completed authorization
redirect, expecting state "xyz". -/
def storeExpect : SessionStore :=
  { emptyStore with
    state := some "xyz"
    code_verifier := some "testverifier"
    issuer := some "https://ehr.example/fhir"
    iss := some "https://ehr.example/fhir"
    token_endpoint := some "https://auth.example/token" }

/-- URL parameters of an OAuth callback. -/
def pCallback : UrlParams :=
  { code := some "authcode", state := some "xyz", iss := none, launch := none }

/-- URL parameters of a SMART EHR launch. -/
def pLaunch : UrlParams :=
  { code := none, state := none, iss := some "https://ehr.example/fhir", launch := some "abc123" }

/-- A URL with no launch or callback parameters. -/
def pEmpty : UrlParams := { code := none, state := none, iss := none, launch := none }

/-- A store holding a cached patient snapshot (backward navigation). -/
def storeCached : SessionStore :=
  { emptyStore with
    patient_data := some { id := "p1" }
    iss := some "https://ehr.example/fhir" }

/-- A successful token exchange that carries no patient context. -/
def envNoPatient : HomeEnv :=
  { envBase with tokenData := { access_token := "tok1", refresh_token := some "r1", patient := none } }

/-- A discovery endpoint answering 404. -/
def envDiscoveryFail : HomeEnv := { envBase with discoveryStatus := 404 }

/-- A successful discovery fetch whose configuration document lacks both
endpoint URLs. -/
def envConfigMissing : HomeEnv :=
  { envBase with discoveryConfig := { authorization_endpoint := none, token_endpoint := none } }

/-- A vitals-page session with full authentication and refresh data. -/
def storeVitals : SessionStore :=
  { emptyStore with
    access_token := some "tokA"
    patient_id := some "p1"
    issuer := some "https://ehr.example/fhir"
    refresh_token := some "r1"
    token_endpoint := some "https://auth.example/token" }

/-- A filled-in new-vital form. -/
def nvHeartRate : NewVital :=
  { category := "Heart Rate", value := "72", unit := "bpm", date := "2026-01-01T00:00" }

/-- A creation run whose first POST gets 401 and whose refresh POST
fails with 500. -/
def envRefreshFails : CreateEnv :=
  { firstStatus := 401, firstBody := "token expired", refreshStatus := 500,
    refreshData := { access_token := "tokB", refresh_token := none, patient := none },
    retryStatus := 200, retryBody := "" }

/-- A creation run whose first POST gets 401, refresh succeeds, and the
retried POST fails with a second 401. -/
def envRetryFails : CreateEnv :=
  { firstStatus := 401, firstBody := "token expired", refreshStatus := 200,
    refreshData := { access_token := "tokB", refresh_token := some "r2", patient := none },
    retryStatus := 401, retryBody := "still unauthorized" }

/-! ## Supporting lemmas -/

/-- Rewriting each standard-alphabet character with '+' → '-' and
'/' → '_' yields the URL-safe alphabet character, which is never '='. -/
theorem stdChar_to_urlChar : ∀ n, n < 64 →
    replaceSlashChar (replacePlusChar (b64StdChar n)) = b64UrlChar n ∧
    (b64UrlChar n != '=') = true := by decide

/-- Each big-endian byte of a word is below 256. -/
theorem wordBytesBE_lt (w : Nat) : ∀ b ∈ wordBytesBE w, b < 256 := by
  intro b hb
  simp only [wordBytesBE, List.mem_cons, List.not_mem_nil, or_false] at hb
  rcases hb with h | h | h | h <;> subst h <;> exact Nat.mod_lt _ (by norm_num)

/-- The SHA-256 digest is a byte list: every element is below 256. -/
theorem sha256_bytes_lt (msg : List Nat) : ∀ b ∈ sha256 msg, b < 256 := by
  intro b hb
  simp only [sha256, List.mem_flatten, List.mem_map] at hb
  obtain ⟨l, ⟨w, _, rfl⟩, hbl⟩ := hb
  exact wordBytesBE_lt w b hbl

/-- On any byte list, `btoa` followed by the three replacements equals
direct unpadded URL-safe base64. -/
theorem btoa_urlsafe_eq : ∀ bs : List Nat, (∀ b ∈ bs, b < 256) →
    ((((btoaList bs).map replacePlusChar).map replaceSlashChar).filter fun c => c != '=')
      = urlSafeB64NoPad bs
  | [], _ => rfl
  | [a], h => by
    have ha : a < 256 := h a (by simp)
    have h1 := stdChar_to_urlChar (a / 4) (by omega)
    have h2 := stdChar_to_urlChar (a % 4 * 16) (by omega)
    simp only [btoaList, List.map_cons, List.map_nil]
    rw [h1.1, h2.1]
    simp only [urlSafeB64NoPad, replacePlusChar, replaceSlashChar]
    norm_num [List.filter_cons, h1.2, h2.2]
    decide
  | [a, b], h => by
    have ha : a < 256 := h a (by simp)
    have hb : b < 256 := h b (by simp)
    have h1 := stdChar_to_urlChar (a / 4) (by omega)
    have h2 := stdChar_to_urlChar (a % 4 * 16 + b / 16) (by omega)
    have h3 := stdChar_to_urlChar (b % 16 * 4) (by omega)
    simp only [btoaList, List.map_cons, List.map_nil]
    rw [h1.1, h2.1, h3.1]
    simp only [urlSafeB64NoPad, replacePlusChar, replaceSlashChar]
    norm_num [List.filter_cons, h1.2, h2.2, h3.2]
    decide
  | a :: b :: c :: rest, h => by
    have ha : a < 256 := h a (by simp)
    have hb : b < 256 := h b (by simp)
    have hc : c < 256 := h c (by simp)
    have ih := btoa_urlsafe_eq rest (fun x hx => h x (by simp [hx]))
    have h1 := stdChar_to_urlChar (a / 4) (by omega)
    have h2 := stdChar_to_urlChar (a % 4 * 16 + b / 16) (by omega)
    have h3 := stdChar_to_urlChar (b % 16 * 4 + c / 64) (by omega)
    have h4 := stdChar_to_urlChar (c % 64) (by omega)
    simp only [btoaList, List.map_append, List.filter_append, List.map_cons, List.map_nil]
    rw [h1.1, h2.1, h3.1, h4.1]
    simp only [urlSafeB64NoPad, List.cons_append, List.nil_append]
    rw [ih]
    norm_num [List.filter_cons, h1.2, h2.2, h3.2, h4.2]

/-! ## Claim theorems -/

/-- C1: for every invocation of `handleOAuthCallback(code, state)`, if
the supplied state differs from the expected state persisted in the
store, the operation terminates in the error state with the
state-mismatch error, its trace contains no network request of any
kind (in particular none to the token endpoint), the store is
untouched, and the outcome is identical for every possible
token-endpoint response. -/
theorem C1_state_mismatch (env env2 : HomeEnv) (code stateParam : String)
    (st : HomeState) (hmis : st.store.state ≠ some stateParam) :
    (handleOAuthCallback env code stateParam st).step = "error" ∧
    (handleOAuthCallback env code stateParam st).error
      = "Token exchange failed: State mismatch" ∧
    (handleOAuthCallback env code stateParam st).trace
      = st.trace ++ [Effect.stepSet "exchanging-token", Effect.stepSet "error"] ∧
    (handleOAuthCallback env code stateParam st).store = st.store ∧
    handleOAuthCallback env code stateParam st
      = handleOAuthCallback env2 code stateParam st := by
  simp [handleOAuthCallback, setStepH, hmis]

/-- C1 witness: a callback carrying state "attacker" against a store
expecting "xyz" ends in the error state without touching the network,
identically under two very different token-endpoint behaviours. -/
theorem C1_state_mismatch_witness :
    (initialHome storeExpect).store.state ≠ some "attacker" ∧
    (handleOAuthCallback envBase "authcode" "attacker" (initialHome storeExpect)).step = "error" ∧
    (handleOAuthCallback envBase "authcode" "attacker" (initialHome storeExpect)).error
      = "Token exchange failed: State mismatch" ∧
    (handleOAuthCallback envBase "authcode" "attacker" (initialHome storeExpect)).trace
      = (initialHome storeExpect).trace
          ++ [Effect.stepSet "exchanging-token", Effect.stepSet "error"] ∧
    (handleOAuthCallback envBase "authcode" "attacker" (initialHome storeExpect)).store
      = (initialHome storeExpect).store ∧
    handleOAuthCallback envBase "authcode" "attacker" (initialHome storeExpect)
      = handleOAuthCallback envAlt "authcode" "attacker" (initialHome storeExpect) := by
  have H := C1_state_mismatch envBase envAlt "authcode" "attacker"
    (initialHome storeExpect) (by decide)
  exact ⟨by decide, H.1, H.2.1, H.2.2.1, H.2.2.2.1, H.2.2.2.2⟩

/-- C2 counterexample: the claim says a 401 on the initial POST is
followed by exactly one refresh and exactly one retry POST; but when
the refresh POST itself fails (500 here), no retry POST is issued at
all — the whole run performs exactly one observation POST. -/
theorem C2_counterexample :
    envRefreshFails.firstStatus = 401 ∧
    createPostCount (createNewVital envRefreshFails nvHeartRate storeVitals).trace = 1 ∧
    refreshPostCount (createNewVital envRefreshFails nvHeartRate storeVitals).trace = 1 ∧
    (createNewVital envRefreshFails nvHeartRate storeVitals).error
      = "Failed to create vital: Token refresh failed: Token refresh failed: 500" := by
  refine ⟨rfl, by decide, by decide, rfl⟩

/-- C2 (amended): for a creation whose initial POST returns 401 (with
refresh data present in the store), exactly one refresh attempt is
made, and the outcome does not depend on the original 401 response's
body; if the refresh succeeds, exactly one retry POST is performed
(two observation POSTs in total, one refresh POST, and no more), and
if the retry fails — any status, including a second 401 — the run is
fatal with the error built from the retry's status and body; if the
refresh fails, the run is fatal with the refresh error and no retry
POST is issued. -/
theorem C2_retry_policy (env : CreateEnv) (nv : NewVital) (store : SessionStore)
    (hauth : (jsTruthy store.access_token && jsTruthy store.patient_id
        && jsTruthy store.issuer) = true)
    (h401 : env.firstStatus = 401)
    (href : (jsTruthy store.refresh_token && jsTruthy store.token_endpoint) = true) :
    (∀ b, createNewVital { env with firstBody := b } nv store = createNewVital env nv store) ∧
    (statusOk env.refreshStatus = true →
      refreshPostCount (createNewVital env nv store).trace = 1 ∧
      createPostCount (createNewVital env nv store).trace = 2 ∧
      (statusOk env.retryStatus = false →
        (createNewVital env nv store).error
          = "Failed to create vital: Token refresh failed: Failed to create vital after token refresh: "
            ++ toString env.retryStatus ++ " " ++ env.retryBody)) ∧
    (statusOk env.refreshStatus = false →
      refreshPostCount (createNewVital env nv store).trace = 1 ∧
      createPostCount (createNewVital env nv store).trace = 1 ∧
      (createNewVital env nv store).error
        = "Failed to create vital: Token refresh failed: Token refresh failed: "
          ++ toString env.refreshStatus) := by
  have hs401 : statusOk 401 = false := by decide
  refine ⟨fun b => ?_, fun hok => ?_, fun hbad => ?_⟩
  · simp [createNewVital, refreshAccessToken, hauth, h401, href, hs401]
  · by_cases hretry : statusOk env.retryStatus = true
    · simp [createNewVital, refreshAccessToken, hauth, h401, href, hok, hretry, hs401,
        refreshPostCount, createPostCount, List.countP_cons, List.countP_nil]
    · simp only [Bool.not_eq_true] at hretry
      simp [createNewVital, refreshAccessToken, hauth, h401, href, hok, hretry, hs401,
        refreshPostCount, createPostCount, List.countP_cons, List.countP_nil]
  · simp [createNewVital, refreshAccessToken, hauth, h401, href, hbad, hs401,
      refreshPostCount, createPostCount, List.countP_cons, List.countP_nil]
    rw [← String.append_assoc]
    congr 1

/-- C2 witness: a concrete 401 run with a successful refresh and a
retry failing with a second 401: one refresh POST, two observation
POSTs, error from the retry, and full independence from the original
401 body. -/
theorem C2_retry_policy_witness :
    refreshPostCount (createNewVital envRetryFails nvHeartRate storeVitals).trace = 1 ∧
    createPostCount (createNewVital envRetryFails nvHeartRate storeVitals).trace = 2 ∧
    (createNewVital envRetryFails nvHeartRate storeVitals).error
      = "Failed to create vital: Token refresh failed: Failed to create vital after token refresh: "
        ++ toString envRetryFails.retryStatus ++ " " ++ envRetryFails.retryBody ∧
    createNewVital { envRetryFails with firstBody := "other" } nvHeartRate storeVitals
      = createNewVital envRetryFails nvHeartRate storeVitals := by
  have H := C2_retry_policy envRetryFails nvHeartRate storeVitals (by decide) rfl (by decide)
  have H2 := H.2.1 (by decide)
  exact ⟨H2.1, H2.2.1, H2.2.2 (by decide), H.1 "other"⟩

/-- C3: evaluation at the failing input.  The claim (and the source's
own comment on the multi-component branch, vitals.js line 158) says an
observation whose only value is two component quantities (systolic,
diastolic) reports both values joined by " / ", but the
first-component branch (vitals.js lines 152-156) returns before the
join branch whenever `component[0]` carries a value, so the code
reports only "120 mmHg".  The second conjunct shows the shadowed join
branch would have produced the claimed "120 mmHg / 80 mmHg"; the third
conjunct records the (correct) sentinel behaviour on an observation
with none of the five shapes. -/
theorem C3_two_component_first_only :
    formatVitalValue bloodPressureObservation = "120 mmHg" ∧
    branchMultiComponent bloodPressureObservation = some "120 mmHg / 80 mmHg" ∧
    formatVitalValue emptyObservation = "No value available" := by
  refine ⟨rfl, rfl, rfl⟩

/-- C4 (amended): for every issuer, the discovery operation fails in
the error state with the discovery-error message when the well-known
fetch returns a non-success status; but a parsed configuration lacking
`authorization_endpoint` and `token_endpoint` is not detected: the
flow stores the string "undefined" as the token endpoint, proceeds to
"redirecting" with no error, and navigates to a URL whose
authorization-endpoint prefix is the string "undefined". -/
theorem C4_discovery_errors (env : HomeEnv) (issuerUrl launch : String)
    (store : SessionStore) :
    (statusOk env.discoveryStatus = false →
      (discoverEndpoints env issuerUrl launch (initialHome store)).step = "error" ∧
      (discoverEndpoints env issuerUrl launch (initialHome store)).error
        = "Discovery failed: Failed to discover endpoints: " ++ toString env.discoveryStatus) ∧
    (statusOk env.discoveryStatus = true →
     env.discoveryConfig.authorization_endpoint = none →
     env.discoveryConfig.token_endpoint = none →
     (jsTruthy env.clientId && jsTruthy env.redirectUri) = true →
      (discoverEndpoints env issuerUrl launch (initialHome store)).step = "redirecting" ∧
      (discoverEndpoints env issuerUrl launch (initialHome store)).error = "" ∧
      (discoverEndpoints env issuerUrl launch (initialHome store)).store.token_endpoint
        = some "undefined" ∧
      ∃ q, (discoverEndpoints env issuerUrl launch (initialHome store)).trace.getLast?
        = some (Effect.navigate ("undefined" ++ "?" ++ q))) := by
  constructor
  · intro hbad
    simp [discoverEndpoints, setStepH, initialHome, hbad]
  · intro hok hauth htok hcreds
    refine ⟨?_, ?_, ?_, ?_⟩
    · simp [discoverEndpoints, buildAuthUrl, setStepH, initialHome, hok, hcreds]
    · simp [discoverEndpoints, buildAuthUrl, setStepH, initialHome, hok, hcreds]
    · simp [discoverEndpoints, buildAuthUrl, setStepH, initialHome, hok, hcreds, htok, jsUndefStr]
    · refine ⟨formEncodeParams
        [("response_type", "code"),
         ("client_id", jsStr env.clientId),
         ("redirect_uri", jsStr env.redirectUri),
         ("scope", "openid fhirUser launch user/Patient.read user/Observation.read user/Observation.write"),
         ("launch", launch),
         ("state", env.stateRand),
         ("aud", issuerUrl),
         ("code_challenge", generateCodeChallenge env.codeVerifierRand),
         ("code_challenge_method", "S256")], ?_⟩
      simp [discoverEndpoints, buildAuthUrl, setStepH, initialHome, hok, hcreds, hauth, jsUndefStr]

/-- C4 counterexample: a successful discovery fetch whose configuration
lacks both endpoint URLs does not fail with a config-malformed error —
the flow reaches "redirecting" with an empty error, refuting the
claimed `ConfigMalformed` failure. -/
theorem C4_counterexample :
    envConfigMissing.discoveryConfig.authorization_endpoint = none ∧
    envConfigMissing.discoveryConfig.token_endpoint = none ∧
    statusOk envConfigMissing.discoveryStatus = true ∧
    (discoverEndpoints envConfigMissing "https://ehr.example/fhir" "abc123"
        (initialHome emptyStore)).step = "redirecting" ∧
    (discoverEndpoints envConfigMissing "https://ehr.example/fhir" "abc123"
        (initialHome emptyStore)).error = "" := by
  refine ⟨rfl, rfl, rfl, rfl, rfl⟩

/-- C4 witness: the discovery-error half at a 404 discovery response,
and the amended missing-endpoints half at a 200 response with an empty
configuration. -/
theorem C4_discovery_errors_witness :
    ((discoverEndpoints envDiscoveryFail "https://ehr.example/fhir" "abc123"
        (initialHome emptyStore)).step = "error" ∧
     (discoverEndpoints envDiscoveryFail "https://ehr.example/fhir" "abc123"
        (initialHome emptyStore)).error
       = "Discovery failed: Failed to discover endpoints: "
           ++ toString envDiscoveryFail.discoveryStatus) ∧
    ((discoverEndpoints envConfigMissing "https://ehr.example/fhir" "abc123"
        (initialHome emptyStore)).step = "redirecting" ∧
     (discoverEndpoints envConfigMissing "https://ehr.example/fhir" "abc123"
        (initialHome emptyStore)).error = "" ∧
     (discoverEndpoints envConfigMissing "https://ehr.example/fhir" "abc123"
        (initialHome emptyStore)).store.token_endpoint = some "undefined" ∧
     ∃ q, (discoverEndpoints envConfigMissing "https://ehr.example/fhir" "abc123"
        (initialHome emptyStore)).trace.getLast?
       = some (Effect.navigate ("undefined" ++ "?" ++ q))) :=
  ⟨(C4_discovery_errors envDiscoveryFail "https://ehr.example/fhir" "abc123" emptyStore).1
      (by decide),
   (C4_discovery_errors envConfigMissing "https://ehr.example/fhir" "abc123" emptyStore).2
      (by decide) rfl rfl (by decide)⟩

/-- C5: the entry dispatch evaluates in priority order: (a) both code
and state present ⇒ it runs the OAuth callback (token exchange);
(b) else both iss and launch present ⇒ it enters "launch" and runs
discovery; (c) else a cached patient snapshot (with its issuer) in the
store ⇒ it restores the success state directly, with a trace containing
no network request and an outcome independent of every endpoint;
(d) otherwise ⇒ terminal error with the missing-launch-parameters
message. -/
theorem C5_entry_dispatch (env : HomeEnv) (p : UrlParams) (store : SessionStore) :
    ((jsTruthy p.code && jsTruthy p.state) = true →
      useEffectRun env p store
        = handleOAuthCallback env (jsStr p.code) (jsStr p.state) (initialHome store)) ∧
    ((jsTruthy p.code && jsTruthy p.state) = false →
     (jsTruthy p.iss && jsTruthy p.launch) = true →
      useEffectRun env p store
        = discoverEndpoints env (jsStr p.iss) (jsStr p.launch)
            (setStepH "launch"
              { initialHome store with
                issuerSt := some (jsStr p.iss), launchSt := some (jsStr p.launch) })) ∧
    ((jsTruthy p.code && jsTruthy p.state) = false →
     (jsTruthy p.iss && jsTruthy p.launch) = false →
     (store.patient_data.isSome && jsTruthy store.iss) = true →
      useEffectRun env p store
        = { step := "success", error := "", patientData := store.patient_data,
            issuerSt := store.iss, launchSt := some "", store := store,
            trace := [Effect.stepSet "success"] }) ∧
    ((jsTruthy p.code && jsTruthy p.state) = false →
     (jsTruthy p.iss && jsTruthy p.launch) = false →
     (store.patient_data.isSome && jsTruthy store.iss) = false →
      useEffectRun env p store
        = { step := "error",
            error := "Missing required parameters. Please launch from EHR.",
            patientData := none, issuerSt := some "", launchSt := some "",
            store := store, trace := [Effect.stepSet "error"] }) := by
  refine ⟨fun h1 => ?_, fun h1 h2 => ?_, fun h1 h2 h3 => ?_, fun h1 h2 h3 => ?_⟩
  · simp [useEffectRun, h1]
  · simp [useEffectRun, h1, h2]
  · simp [useEffectRun, h1, h2, h3, initialHome, setStepH]
  · simp [useEffectRun, h1, h2, h3, initialHome, setStepH]

/-- C5 witness: the four dispatch branches at four concrete page
loads — an OAuth callback, a SMART launch, a bare load with a cached
snapshot, and a bare load with an empty store. -/
theorem C5_entry_dispatch_witness :
    useEffectRun envBase pCallback storeExpect
      = handleOAuthCallback envBase "authcode" "xyz" (initialHome storeExpect) ∧
    useEffectRun envBase pLaunch emptyStore
      = discoverEndpoints envBase "https://ehr.example/fhir" "abc123"
          (setStepH "launch"
            { initialHome emptyStore with
              issuerSt := some "https://ehr.example/fhir", launchSt := some "abc123" }) ∧
    useEffectRun envBase pEmpty storeCached
      = { step := "success", error := "", patientData := storeCached.patient_data,
          issuerSt := storeCached.iss, launchSt := some "", store := storeCached,
          trace := [Effect.stepSet "success"] } ∧
    useEffectRun envBase pEmpty emptyStore
      = { step := "error",
          error := "Missing required parameters. Please launch from EHR.",
          patientData := none, issuerSt := some "", launchSt := some "",
          store := emptyStore, trace := [Effect.stepSet "error"] } := by
  refine ⟨?_, ?_, ?_, ?_⟩
  · exact (C5_entry_dispatch envBase pCallback storeExpect).1 (by decide)
  · exact (C5_entry_dispatch envBase pLaunch emptyStore).2.1 (by decide) (by decide)
  · exact (C5_entry_dispatch envBase pEmpty storeCached).2.2.1 (by decide) (by decide) (by decide)
  · exact (C5_entry_dispatch envBase pEmpty emptyStore).2.2.2 (by decide) (by decide) (by decide)

/-- C6: for a selected category with 12 observations and window size 5,
page 0 shows [0..5), page 1 shows [5..10), page 2 shows [10..12);
has-more is true at pages 0 and 1 and false at page 2; advancing past
the last window is a no-op; and selecting any category (the last two
conjuncts, for an arbitrary category and state) always resets the page
index to 0 and shows the first window. -/
theorem C6_pagination (category : VitalCategory) (s : PageState)
    (c2 : VitalCategory) (s2 : PageState)
    (h : category.vitals.length = 12) :
    (selectCategory category s).currentPage = 0 ∧
    (selectCategory category s).categoryVitals = jsSlice category.vitals 0 5 ∧
    (loadMoreVitals (selectCategory category s)).currentPage = 1 ∧
    (loadMoreVitals (selectCategory category s)).categoryVitals = jsSlice category.vitals 5 10 ∧
    (loadMoreVitals (loadMoreVitals (selectCategory category s))).currentPage = 2 ∧
    (loadMoreVitals (loadMoreVitals (selectCategory category s))).categoryVitals
      = category.vitals.drop 10 ∧
    hasMoreVitals (selectCategory category s) = true ∧
    hasMoreVitals (loadMoreVitals (selectCategory category s)) = true ∧
    hasMoreVitals (loadMoreVitals (loadMoreVitals (selectCategory category s))) = false ∧
    loadMoreVitals (loadMoreVitals (loadMoreVitals (selectCategory category s)))
      = loadMoreVitals (loadMoreVitals (selectCategory category s)) ∧
    (selectCategory c2 s2).currentPage = 0 ∧
    (selectCategory c2 s2).categoryVitals = jsSlice c2.vitals 0 VITALS_PER_PAGE := by
  have l1 : (jsSlice category.vitals 5 10).length = 5 := by
    simp [jsSlice, List.length_take, List.length_drop, h]
  have l2 : (jsSlice category.vitals 10 15).length = 2 := by
    simp [jsSlice, List.length_take, List.length_drop, h]
  have l3 : jsSlice category.vitals 10 15 = category.vitals.drop 10 := by
    simp only [jsSlice]
    apply List.take_of_length_le
    simp [List.length_drop, h]
  have e1 : loadMoreVitals (selectCategory category s) =
      { selectedCategory := some category,
        categoryVitals := jsSlice category.vitals 5 10, currentPage := 1 } := by
    simp [loadMoreVitals, selectCategory, VITALS_PER_PAGE, l1]
  have e2 : loadMoreVitals (loadMoreVitals (selectCategory category s)) =
      { selectedCategory := some category,
        categoryVitals := jsSlice category.vitals 10 15, currentPage := 2 } := by
    rw [e1]
    simp [loadMoreVitals, VITALS_PER_PAGE, l2]
  have e3 : loadMoreVitals (loadMoreVitals (loadMoreVitals (selectCategory category s)))
      = loadMoreVitals (loadMoreVitals (selectCategory category s)) := by
    rw [e2]
    have l4 : (jsSlice category.vitals 15 20).length = 0 := by
      simp [jsSlice, List.length_take, List.length_drop, h]
    simp [loadMoreVitals, VITALS_PER_PAGE, l4]
  refine ⟨rfl, rfl, ?_, ?_, ?_, ?_, ?_, ?_, ?_, e3, rfl, rfl⟩
  · rw [e1]
  · rw [e1]
  · rw [e2]
  · rw [e2]; exact l3
  · simp [hasMoreVitals, selectCategory, VITALS_PER_PAGE, h]
  · rw [e1]; simp [hasMoreVitals, VITALS_PER_PAGE, h]
  · rw [e2]; simp [hasMoreVitals, VITALS_PER_PAGE, h]

/-- C6 witness: the pagination scenario evaluated at a concrete
12-observation category from the initial page state. -/
theorem C6_pagination_witness :
    category12.vitals.length = 12 ∧
    ((selectCategory category12 initialPageState).currentPage = 0 ∧
     (selectCategory category12 initialPageState).categoryVitals = jsSlice category12.vitals 0 5 ∧
     (loadMoreVitals (selectCategory category12 initialPageState)).currentPage = 1 ∧
     (loadMoreVitals (selectCategory category12 initialPageState)).categoryVitals
       = jsSlice category12.vitals 5 10 ∧
     (loadMoreVitals (loadMoreVitals (selectCategory category12 initialPageState))).currentPage = 2 ∧
     (loadMoreVitals (loadMoreVitals (selectCategory category12 initialPageState))).categoryVitals
       = category12.vitals.drop 10 ∧
     hasMoreVitals (selectCategory category12 initialPageState) = true ∧
     hasMoreVitals (loadMoreVitals (selectCategory category12 initialPageState)) = true ∧
     hasMoreVitals (loadMoreVitals (loadMoreVitals (selectCategory category12 initialPageState))) = false ∧
     loadMoreVitals (loadMoreVitals (loadMoreVitals (selectCategory category12 initialPageState)))
       = loadMoreVitals (loadMoreVitals (selectCategory category12 initialPageState)) ∧
     (selectCategory category12 initialPageState).currentPage = 0 ∧
     (selectCategory category12 initialPageState).categoryVitals
       = jsSlice category12.vitals 0 VITALS_PER_PAGE) :=
  ⟨rfl, C6_pagination category12 initialPageState category12 initialPageState rfl⟩

/-- C7: for every verifier string, the derived code challenge equals the
URL-safe base64 encoding (with '+' → '-', '/' → '_', no '=' padding) of
the SHA-256 digest of the verifier's UTF-8 bytes, and deriving the
challenge twice from the same verifier yields the same result. -/
theorem C7_code_challenge_spec (codeVerifier : String) :
    generateCodeChallenge codeVerifier = codeChallengeSpec codeVerifier ∧
    generateCodeChallenge codeVerifier = generateCodeChallenge codeVerifier := by
  refine ⟨?_, rfl⟩
  unfold generateCodeChallenge codeChallengeSpec
  exact congrArg String.mk (btoa_urlsafe_eq _ (sha256_bytes_lt _))

/-- C8: in every execution of the authorization-redirect step that
reaches the redirect, the code verifier, the expected state, the
issuer, the launch token and the token endpoint are all written to the
session store at trace positions strictly before the navigation to the
authorization server's URL. -/
theorem C8_store_before_redirect (env : HomeEnv) (issuerUrl : String)
    (config : SmartConfig) (launch : String) (store : SessionStore)
    (hcreds : (jsTruthy env.clientId && jsTruthy env.redirectUri) = true) :
    writesBeforeNavigate (buildAuthUrl env issuerUrl config launch (initialHome store)).trace
      ["code_verifier", "state", "issuer", "token_endpoint", "iss", "launch"] ∧
    (buildAuthUrl env issuerUrl config launch (initialHome store)).step = "redirecting" := by
  have htr : (buildAuthUrl env issuerUrl config launch (initialHome store)).trace
      = [Effect.stepSet "building-auth", Effect.storeWrite "code_verifier",
         Effect.storeWrite "state", Effect.storeWrite "issuer",
         Effect.storeWrite "token_endpoint", Effect.storeWrite "iss",
         Effect.storeWrite "launch", Effect.stepSet "redirecting",
         Effect.navigate (jsUndefStr config.authorization_endpoint ++ "?" ++ formEncodeParams
          [("response_type", "code"),
           ("client_id", jsStr env.clientId),
           ("redirect_uri", jsStr env.redirectUri),
           ("scope", "openid fhirUser launch user/Patient.read user/Observation.read user/Observation.write"),
           ("launch", launch),
           ("state", env.stateRand),
           ("aud", issuerUrl),
           ("code_challenge", generateCodeChallenge env.codeVerifierRand),
           ("code_challenge_method", "S256")])] := by
    simp [buildAuthUrl, setStepH, initialHome, hcreds]
  constructor
  · simp only [writesBeforeNavigate]
    intro k hk
    rw [htr]
    fin_cases hk
    · exact ⟨1, 8, by omega, rfl, _, rfl⟩
    · exact ⟨2, 8, by omega, rfl, _, rfl⟩
    · exact ⟨3, 8, by omega, rfl, _, rfl⟩
    · exact ⟨4, 8, by omega, rfl, _, rfl⟩
    · exact ⟨5, 8, by omega, rfl, _, rfl⟩
    · exact ⟨6, 8, by omega, rfl, _, rfl⟩
  · simp [buildAuthUrl, setStepH, initialHome, hcreds]

/-- C8 witness: the ordering property at a concrete environment and
configuration. -/
theorem C8_store_before_redirect_witness :
    (jsTruthy envBase.clientId && jsTruthy envBase.redirectUri) = true ∧
    (writesBeforeNavigate
        (buildAuthUrl envBase "https://ehr.example/fhir" envBase.discoveryConfig "abc123"
          (initialHome emptyStore)).trace
        ["code_verifier", "state", "issuer", "token_endpoint", "iss", "launch"] ∧
     (buildAuthUrl envBase "https://ehr.example/fhir" envBase.discoveryConfig "abc123"
        (initialHome emptyStore)).step = "redirecting") :=
  ⟨by decide,
   C8_store_before_redirect envBase "https://ehr.example/fhir" envBase.discoveryConfig
     "abc123" emptyStore (by decide)⟩

/-- C9: for every successful token exchange (matching state, success
status): if the response carries a patient identifier, the access
token is stored and the patient fetch proceeds, targeting exactly that
identifier; if it carries none, the flow terminates in the error state
with the no-patient-context message, its only network request being
the token POST — it never reaches success. -/
theorem C9_patient_context (env : HomeEnv) (code stateParam : String)
    (store : SessionStore)
    (hstate : store.state = some stateParam)
    (hok : statusOk env.tokenStatus = true) :
    (jsTruthy env.tokenData.patient = true →
      Effect.netGet (jsStr store.issuer ++ "/Patient/" ++ jsStr env.tokenData.patient)
        ∈ (handleOAuthCallback env code stateParam (initialHome store)).trace ∧
      (handleOAuthCallback env code stateParam (initialHome store)).store.access_token
        = some env.tokenData.access_token) ∧
    (jsTruthy env.tokenData.patient = false →
      (handleOAuthCallback env code stateParam (initialHome store)).step = "error" ∧
      (handleOAuthCallback env code stateParam (initialHome store)).error
        = "No patient context found in token. This app must be launched with a patient context." ∧
      (handleOAuthCallback env code stateParam (initialHome store)).trace.filter Effect.isNet
        = [Effect.netPost (jsStr store.token_endpoint)]) := by
  constructor
  · intro hpat
    by_cases hps : statusOk env.patientStatus = true
    · simp [handleOAuthCallback, setStepH, fetchPatientData, initialHome, hstate, hok, hpat, hps]
    · simp [handleOAuthCallback, setStepH, fetchPatientData, initialHome, hstate, hok, hpat, hps]
  · intro hpat
    simp [handleOAuthCallback, setStepH, initialHome, hstate, hok, hpat, Effect.isNet]

/-- C9 witness: a token response carrying patient "p1" leads to a
patient fetch for "p1" and the stored access token; a token response
with no patient context ends in the error state with the
no-patient-context message. -/
theorem C9_patient_context_witness :
    (Effect.netGet (jsStr storeExpect.issuer ++ "/Patient/" ++ jsStr envBase.tokenData.patient)
       ∈ (handleOAuthCallback envBase "authcode" "xyz" (initialHome storeExpect)).trace ∧
     (handleOAuthCallback envBase "authcode" "xyz" (initialHome storeExpect)).store.access_token
       = some envBase.tokenData.access_token) ∧
    ((handleOAuthCallback envNoPatient "authcode" "xyz" (initialHome storeExpect)).step = "error" ∧
     (handleOAuthCallback envNoPatient "authcode" "xyz" (initialHome storeExpect)).error
       = "No patient context found in token. This app must be launched with a patient context." ∧
     (handleOAuthCallback envNoPatient "authcode" "xyz" (initialHome storeExpect)).trace.filter
        Effect.isNet = [Effect.netPost (jsStr storeExpect.token_endpoint)]) :=
  ⟨(C9_patient_context envBase "authcode" "xyz" storeExpect rfl (by decide)).1 (by decide),
   (C9_patient_context envNoPatient "authcode" "xyz" storeExpect rfl (by decide)).2 (by decide)⟩

/-- C10: every pagination operation — selecting a category, advancing a
page, retreating a page — preserves the window invariant: the displayed
list is always the contiguous slice [page·5, min(page·5+5, total)) of
the selected category's list, each page replacing (never appending to)
the previous window, with at most 5 observations displayed. -/
theorem C10_window_invariant (s : PageState) (category : VitalCategory)
    (hinv : paginationInv s = true) :
    paginationInv (selectCategory category s) = true ∧
    paginationInv (loadMoreVitals s) = true ∧
    paginationInv (goPrevPage s) = true := by
  refine ⟨?_, ?_, ?_⟩
  · simp [paginationInv, selectCategory, jsSlice, decide_eq_true_eq, List.length_take]
  · cases hsel : s.selectedCategory with
    | none => simpa [loadMoreVitals, hsel] using hinv
    | some c =>
      simp only [loadMoreVitals, hsel]
      by_cases hlen : (jsSlice c.vitals ((s.currentPage + 1) * VITALS_PER_PAGE)
          ((s.currentPage + 1) * VITALS_PER_PAGE + VITALS_PER_PAGE)).length > 0
      · rw [if_pos hlen]
        simp [paginationInv, hsel, jsSlice, decide_eq_true_eq, List.length_take]
      · rw [if_neg hlen]
        exact hinv
  · cases hsel : s.selectedCategory with
    | none => simpa [goPrevPage, hsel] using hinv
    | some c =>
      simp only [goPrevPage, hsel]
      by_cases hz : s.currentPage = 0
      · rw [if_pos hz]; exact hinv
      · rw [if_neg hz]
        simp [paginationInv, hsel, jsSlice, decide_eq_true_eq, List.length_take]

/-- C10 witness: the invariant holds at a concrete selected state and is
preserved by each of the three operations there. -/
theorem C10_window_invariant_witness :
    paginationInv pageStateW = true ∧
    (paginationInv (selectCategory category12 pageStateW) = true ∧
     paginationInv (loadMoreVitals pageStateW) = true ∧
     paginationInv (goPrevPage pageStateW) = true) :=
  ⟨by decide, C10_window_invariant pageStateW category12 (by decide)⟩
